import Mathlib

/-
Verification of the piece-assignment / entry-formatting core of
jigsaw-generate.py against its specification.

The Python source is shallowly embedded below: Python lists become Lean
lists, Python ints become Int (arbitrary precision in both), fallible
operations (list indexing, int() parsing, undefined names, sys.exit)
return Except PyErr, and the run-scoped mutable flag exists_hidden is
threaded explicitly.  Randomness (random.shuffle / random.randint) is
modelled by an infinite stream of draws sigma : Nat -> Nat together with
a cursor, each draw being reduced modulo its range, exactly mirroring
the order of draws in the source.
-/

namespace Jigsaw

/-- Python runtime errors that the embedded fragment can raise:
IndexError from list indexing, NameError from referencing an undefined
name (the source calls the undefined `printf`), TypeError (re.sub with a
replacement function returning None), ValueError (int() on a bad
literal) and SystemExit from sys.exit. -/
inductive PyErr where
  | indexError
  | nameError (nm : String)
  | typeError (msg : String)
  | valueError (msg : String)
  | exitErr (msg : String)
  deriving Repr, DecidableEq

/-- Python list indexing l[i]: a negative index counts from the end;
anything still out of range raises IndexError. -/
def pyIndex (l : List α) (i : Int) : Except PyErr α :=
  let j := if i < 0 then i + l.length else i
  if j < 0 then .error .indexError
  else
    match l.get? j.toNat with
    | some a => .ok a
    | none => .error .indexError

/-- True exactly when the computation aborted via sys.exit
(PyErr.exitErr); every other outcome, successful or not, gives false. -/
def isExitAbort : Except PyErr α → Bool
  | .error (.exitErr _) => true
  | _ => false

/-- The LaTeX font size vocabulary (source: `sizes`, lines 35-45). -/
def sizes : List String :=
  ["\\tiny", "\\scriptsize", "\\footnotesize", "\\small", "\\normalsize",
   "\\large", "\\Large", "\\LARGE", "\\huge", "\\Huge"]

/-- Source: `normalsize = 4`. -/
def normalsize : Int := 4

/-- Source: `cardnum(n)` — underline 6 and 9, everything else as a
plain decimal string. -/
def cardnum (n : Int) : String :=
  if n = 6 ∨ n = 9 then "\\underline\x7b" ++ toString n ++ "\x7d"
  else toString n

/-- A YAML content entry: either a bare string, or a dict with an
optional "text" field, an optional "size" field (which int() either
parses or rejects) and an optional "hidden" field. -/
inductive SizeField where
  | num (n : Int)
  | bad (s : String)
  deriving Repr, DecidableEq

inductive Entry where
  | str (s : String)
  | dict (text : Option String) (size : Option SizeField) (hidden : Option Bool)
  deriving Repr, DecidableEq

/-- The "style" parameter of make_entry; every call site in the source
passes one of the three literals "table", "tikz" or "md". -/
inductive Style where
  | table
  | tikz
  | md
  deriving Repr, DecidableEq

/-- Helper for the image regex: split a character list at the first
occurrence of c, returning the part before and the part after; none if
c does not occur.  Models the forced extent of the character classes
[^\x5d]* and [^)]* in the pattern. -/
def imgBreak (c : Char) : List Char → Option (List Char × List Char)
  | [] => none
  | x :: xs =>
    if x = c then some ([], xs)
    else (imgBreak c xs).map fun p => (x :: p.1, p.2)

/-- Leftmost match of the image pattern from img_re (line 165), the
regex on captions and paths: returns (prefix, caption, path, suffix).
The caption runs to the first closing bracket and the path to the first
closing parenthesis, as the regex character classes force. -/
def imgFind : List Char → Option (List Char × List Char × List Char × List Char)
  | [] => none
  | '!' :: '[' :: rest =>
    match imgBreak ']' rest with
    | some (cap, '(' :: rest2) =>
      match imgBreak ')' rest2 with
      | some (path, rest3) => some ([], cap, path, rest3)
      | none =>
        (imgFind ('[' :: rest)).map fun q => ('!' :: q.1, q.2.1, q.2.2.1, q.2.2.2)
    | _ =>
      (imgFind ('[' :: rest)).map fun q => ('!' :: q.1, q.2.1, q.2.2.1, q.2.2.2)
  | c :: cs => (imgFind cs).map fun q => (c :: q.1, q.2.1, q.2.2.1, q.2.2.2)

/-- Bound on the iterations of the img2tex while-loop: each
substitution removes exactly one occurrence of the two-character
sequence close-bracket open-paren (the one between caption and path;
the replacement can introduce none), so the number of such occurrences
bounds the loop. -/
def brkCount : List Char → Nat
  | ']' :: '(' :: rest => brkCount ('(' :: rest) + 1
  | _ :: rest => brkCount rest
  | [] => 0

/-- The while-loop of img2tex (lines 169-178): repeatedly replace the
leftmost image marker, with a captioned or plain image directive
according to the truthiness of the caption. -/
def img2texLoop : Nat → List Char → List Char
  | 0, l => l
  | fuel + 1, l =>
    match imgFind l with
    | none => l
    | some (pre, cap, path, suf) =>
      let repl :=
        if cap ≠ [] then
          ("\\imagecap\x7b").data ++ path ++ ("\x7d\x7b").data ++ cap ++ ("\x7d").data
        else
          ("\\image\x7b").data ++ path ++ ("\x7d").data
      img2texLoop fuel (pre ++ repl ++ suf)

/-- Source: img2tex (lines 167-180). -/
def img2tex (text : String) : String :=
  String.mk (img2texLoop (brkCount text.data + 1) text.data)

/-- Source: make_entry_util (lines 143-163). -/
def make_entry_util (text : String) (size : String) (mark_hidden : Bool)
    (style : Style) : String :=
  if mark_hidden then
    match style with
    | .table => "(*) " ++ img2tex text
    | .tikz => "\x7bhidden\x7d\x7b" ++ size ++ " " ++ img2tex text ++ "\x7d"
    | .md => " (*) " ++ text ++ " "
  else
    match style with
    | .table => img2tex text
    | .tikz => "\x7bregular\x7d\x7b" ++ size ++ " " ++ img2tex text ++ "\x7d"
    | .md => " " ++ (if text = "" then "(BLANK)" else text) ++ " "

/-- Source: make_entry (lines 76-141).  The global exists_hidden flag
is threaded explicitly: the result pairs the produced string with the
flag value after the call.  A dict without a "text" field returns the
empty unmarked entry without touching the flag (the early return at
line 107); the flag is set whenever a dict entry has a truthy "hidden"
field, before the hide parameter is even inspected (lines 125-127); a
hide parameter other than "hide"/"mark"/"ignore" then reaches
sys.exit (line 136). -/
def make_entry (entry : Entry) (defaultsize : Int) (hide : String)
    (style : Style) (exists_hidden : Bool) : Except PyErr (String × Bool) :=
  match entry with
  | .dict none _ _ => .ok (make_entry_util "" "" false style, exists_hidden)
  | .dict (some text) sizeF hidden =>
    let size : Int :=
      match sizeF with
      | some (.num n) =>
        let s0 := defaultsize + n
        let s1 := if s0 < 0 then 0 else s0
        if s1 ≥ (sizes.length : Int) then (sizes.length : Int) - 1 else s1
      | some (.bad _) => defaultsize
      | none => defaultsize
    if hidden = some true then
      if hide = "hide" then .ok (make_entry_util "" "" false style, true)
      else if hide = "mark" then
        (pyIndex sizes size).map fun sz => (make_entry_util text sz true style, true)
      else if hide = "ignore" then
        (pyIndex sizes size).map fun sz => (make_entry_util text sz false style, true)
      else .error (.exitErr "This should not happen: bad hide parameter")
    else
      (pyIndex sizes size).map fun sz =>
        (make_entry_util text sz false style, exists_hidden)
  | .str s =>
    (pyIndex sizes defaultsize).map fun sz =>
      (make_entry_util s sz false style, exists_hidden)

/-- Drop leading regex whitespace. -/
def dropWs : List Char → List Char
  | c :: cs => if c.isWhitespace then dropWs cs else c :: cs
  | [] => []

/-- Greedy run of non-whitespace characters, as matched by a greedy
non-space character class. -/
def takeNonWs : List Char → List Char
  | c :: cs => if c.isWhitespace then [] else c :: takeNonWs cs
  | [] => []

def dropNonWs : List Char → List Char
  | c :: cs => if c.isWhitespace then c :: cs else dropNonWs cs
  | [] => []

/-- Backtracking for the greedy non-space group of the losub token
regex: try name lengths k, k-1, ..., 0 over the non-space run r; after
the chosen name the regex needs optional whitespace and then the
two-character terminator colon greater-than. -/
def losubCheckAt (r rest : List Char) (k : Nat) : Option (List Char × List Char) :=
  match dropWs (r.drop k ++ rest) with
  | ':' :: '>' :: tail => some (r.take k, tail)
  | _ => none

def losubTryName (r rest : List Char) : Nat → Option (List Char × List Char)
  | 0 => losubCheckAt r rest 0
  | k + 1 =>
    match losubCheckAt r rest (k + 1) with
    | some res => some res
    | none => losubTryName r rest k

/-- Leftmost match of the substitution-token regex of losub (line 74):
returns (prefix, token name, suffix after the token). -/
def losubFind : List Char → Option (List Char × List Char × List Char)
  | [] => none
  | '<' :: ':' :: rest =>
    let l1 := dropWs rest
    match losubTryName (takeNonWs l1) (dropNonWs l1) (takeNonWs l1).length with
    | some (name, tail) => some ([], name, tail)
    | none =>
      (losubFind (':' :: rest)).map fun q => ('<' :: q.1, q.2.1, q.2.2)
  | c :: cs => (losubFind cs).map fun q => (c :: q.1, q.2.1, q.2.2)

/-- Dictionary lookup for the substitution map. -/
def subsLookup (subs : List (String × String)) (k : String) : Option String :=
  match subs.find? (fun p => p.1 = k) with
  | some p => some p.2
  | none => none

/-- Replacement loop of re.sub inside losub: each recognised token is
replaced by its value (the replacement is not rescanned); a token whose
name is not in subs makes the replacement callback return None, which
re.sub rejects with a TypeError.  Each step consumes at least the four
characters of the token delimiters, so the input length bounds the
number of steps. -/
def losubLoop (subs : List (String × String)) : Nat → List Char → Except PyErr (List Char)
  | 0, l => .ok l
  | fuel + 1, l =>
    match losubFind l with
    | none => .ok l
    | some (pre, name, suf) =>
      match subsLookup subs (String.mk name) with
      | some v => (losubLoop subs fuel suf).map fun r => pre ++ v.data ++ r
      | none => .error (.typeError "sub() replacement returned None, expected str")

/-- Source: losub (lines 66-74). -/
def losub (text : String) (subs : List (String × String)) : Except PyErr String :=
  (losubLoop subs (text.length + 1) text.data).map String.mk

/-- Accumulate a decimal digit string; none as soon as a non-digit
appears. -/
def parseDigits : List Char → Nat → Option Nat
  | [], acc => some acc
  | c :: cs, acc =>
    if c.isDigit then parseDigits cs (acc * 10 + (c.toNat - 48)) else none

/-- Python int() on the card reference suffixes: an optional minus sign
followed by one or more digits; anything else raises ValueError (the
leading-plus and whitespace forms int() also accepts do not occur in
layout files). -/
def pyIntOfString (s : String) : Except PyErr Int :=
  match s.data with
  | '-' :: rest =>
    if rest = [] then
      .error (.valueError ("invalid literal for int() with base 10: " ++ s))
    else
      match parseDigits rest 0 with
      | some n => .ok (-(n : Int))
      | none => .error (.valueError ("invalid literal for int() with base 10: " ++ s))
  | cs =>
    if cs = [] then
      .error (.valueError ("invalid literal for int() with base 10: " ++ s))
    else
      match parseDigits cs 0 with
      | some n => .ok (n : Int)
      | none => .error (.valueError ("invalid literal for int() with base 10: " ++ s))

/-- Resolution of one solution-card ring (make_triangles lines 234-249;
make_squares lines 337-352 are an identical copy apart from the name in
the diagnostic).  Each reference token is split into int(entry[1:]) - 1
(evaluated first, line 238) and its leading kind character; Q resolves
to the first pair component, A to the second, E to an edge.  Any other
kind character reaches the call to the undefined name printf, raising
NameError.  The pairs are the (question, answer) 2-element lists of the
data file. -/
def resolve_solution_card (pairs : List (Entry × Entry)) (edges : List Entry) :
    List String → Except PyErr (List Entry)
  | [] => .ok []
  | entry :: rest => do
    let m ← pyIntOfString (String.mk entry.data.tail)
    let entrynum := m - 1
    let resolved ←
      match entry.data with
      | 'Q' :: _ => (pyIndex pairs entrynum).map Prod.fst
      | 'A' :: _ => (pyIndex pairs entrynum).map Prod.snd
      | 'E' :: _ => pyIndex edges entrynum
      | _ => .error (.nameError "printf")
    let restResolved ← resolve_solution_card pairs edges rest
    .ok (resolved :: restResolved)

/-- Resolution of the whole triangleSolutionCards / squareSolutionCards
list, one card after the other as the source loop does. -/
def resolve_solution_cards (pairs : List (Entry × Entry)) (edges : List Entry) :
    List (List String) → Except PyErr (List (List Entry))
  | [] => .ok []
  | card :: rest => do
    let c ← resolve_solution_card pairs edges card
    let cs ← resolve_solution_cards pairs edges rest
    .ok (c :: cs)

/-- One step of random.shuffle: exchange x[i] and x[j].  Both indices
are in range whenever the source executes this (j <= i < len), in which
case this is the Python tuple assignment x[i], x[j] = x[j], x[i]. -/
def listSwap (l : List α) (i j : Nat) : List α :=
  match l.get? i, l.get? j with
  | some a, some b => (l.set i b).set j a
  | _, _ => l

/-- Python random.shuffle(x): for i in reversed(range(1, len(x))),
draw j uniformly in [0, i] and swap x[i] with x[j].  The draws come
from the stream sigma starting at cursor s; the result pairs the
shuffled list with the advanced cursor. -/
def pyShuffle (x : List α) (sigma : Nat → Nat) (s : Nat) : List α × Nat :=
  ((List.range' 1 (x.length - 1)).reverse).foldl
    (fun st i => (listSwap st.1 i (sigma st.2 % (i + 1)), st.2 + 1)) (x, s)

/-- Source lines 257-258: triangleorder = list(range(N)) shuffled. -/
def triangleorder (n : Nat) (sigma : Nat → Nat) (s : Nat) : List Nat :=
  (pyShuffle (List.range n) sigma s).1

/-- Source lines 360-361: squareorder = list(range(N)) shuffled. -/
def squareorder (n : Nat) (sigma : Nat → Nat) (s : Nat) : List Nat :=
  (pyShuffle (List.range n) sigma s).1

/-- The first three components of trianglepuzcard[j] (source lines
267-269): the solution ring read at positions (3-rot)%3, (4-rot)%3,
(5-rot)%3. -/
def triangle_puzzle_ring (solcard : List α) (rot : Nat) : Except PyErr (List α) := do
  let r0 ← pyIndex solcard ((3 - (rot : Int)) % 3)
  let r1 ← pyIndex solcard ((4 - (rot : Int)) % 3)
  let r2 ← pyIndex solcard ((5 - (rot : Int)) % 3)
  .ok [r0, r1, r2]

/-- The first four components of squarepuzcard[j] (source lines
370-373): the solution ring read at positions (4-rot)%4 ... (7-rot)%4. -/
def square_puzzle_ring (solcard : List α) (rot : Nat) : Except PyErr (List α) := do
  let r0 ← pyIndex solcard ((4 - (rot : Int)) % 4)
  let r1 ← pyIndex solcard ((5 - (rot : Int)) % 4)
  let r2 ← pyIndex solcard ((6 - (rot : Int)) % 4)
  let r3 ← pyIndex solcard ((7 - (rot : Int)) % 4)
  .ok [r0, r1, r2, r3]

/-- The un-normalized solution-number angle for a triangle card
(source lines 275-277): number direction of the puzzle position, plus
the solution/puzzle base-orientation difference, minus 120 degrees per
rotation step. -/
def triangle_solution_angle (numpuz solorient basepuz rot : Int) : Int :=
  numpuz + (solorient - basepuz) - 120 * rot

/-- The square version (source lines 380-382): 90 degrees per step. -/
def square_solution_angle (numpuz solorient basepuz rot : Int) : Int :=
  numpuz + (solorient - basepuz) - 90 * rot

/-- Source line 278 / 384: the angle is folded by (angle + 180) % 360
- 180, Python % being non-negative for a positive modulus. -/
def normalize_angle (angle : Int) : Int := (angle + 180) % 360 - 180

/-- Membership test for the substitution dictionaries. -/
def dictContains (d : List (String × String)) (k : String) : Bool :=
  d.any fun p => p.1 = k

/-- Read a key of a substitution dictionary, with a default. -/
def dictGetD (d : List (String × String)) (k : String) (dflt : String) : String :=
  match d.find? (fun p => p.1 = k) with
  | some p => p.2
  | none => dflt

/-- Write a key of a substitution dictionary: replace in place if
present (dict update), append otherwise (dict insertion). -/
def dictSet (d : List (String × String)) (k v : String) : List (String × String) :=
  match d with
  | [] => [(k, v)]
  | p :: rest => if p.1 = k then (k, v) :: rest else p :: dictSet rest k v

/-- The row builder of the Markdown loops (lines 301-306 / 407-411):
row starts as a pipe and each of the listed entries appends its
md-formatted text and a pipe, threading the hidden flag. -/
def md_row_fold : List Entry → String → Bool → Except PyErr (String × Bool)
  | [], row, flag => .ok (row, flag)
  | e :: rest, row, flag => do
    let (s, flag') ← make_entry e 0 "hide" .md flag
    md_row_fold rest (row ++ s ++ "|") flag'

/-- The Markdown puzzle-card loop of make_triangles (lines 301-306):
each puzzle card contributes its first three entries as one row to both
puzcards3 and puzcards4 (the latter padded with a blank cell). -/
def mt_md_loop : List (List Entry) → List (String × String) × Bool →
    Except PyErr (List (String × String) × Bool)
  | [], st => .ok st
  | t :: rest, (dsubsmd, flag) => do
    let (row, flag') ← md_row_fold (t.take 3) "|" flag
    let dsubsmd := dictSet dsubsmd "puzcards3"
      (dictGetD dsubsmd "puzcards3" "" ++ row ++ "\n")
    let dsubsmd := dictSet dsubsmd "puzcards4"
      (dictGetD dsubsmd "puzcards4" "" ++ row ++ " &nbsp; |\n")
    mt_md_loop rest (dsubsmd, flag')

/-- The Markdown puzzle-card loop of make_squares (lines 407-411):
first four entries, appended to puzcards4 only. -/
def ms_md_loop : List (List Entry) → List (String × String) × Bool →
    Except PyErr (List (String × String) × Bool)
  | [], st => .ok st
  | t :: rest, (dsubsmd, flag) => do
    let (row, flag') ← md_row_fold (t.take 4) "|" flag
    let dsubsmd := dictSet dsubsmd "puzcards4"
      (dictGetD dsubsmd "puzcards4" "" ++ row ++ "\n")
    ms_md_loop rest (dsubsmd, flag')

/-- The main loop of make_triangles (lines 264-291), one iteration per
solution card, carried state (trianglepuzcard, dsubs, exists_hidden,
random cursor).  trianglepuzcard records the three content entries of
each placed card (the trailing card-number string and orientation of
the source list are rebuilt where consumed).  Per iteration: look up
the puzzle position j, draw the rotation, build the rotated ring, read
the puzzle orientation pair, compute the solution-number angle, and
produce the trisolcard / tripuzcard substitution strings through
make_entry exactly as lines 280-291 do. -/
def mt_loop (puzzle_size solution_size : Int) (solorient : List Int)
    (puzorient : List (Int × Int)) (order : List Nat) (sigma : Nat → Nat) :
    Nat → List (List Entry) →
    List (List Entry) × List (String × String) × Bool × Nat →
    Except PyErr (List (List Entry) × List (String × String) × Bool × Nat)
  | _, [], st => .ok st
  | i, solcard :: restCards, (puzcards, dsubs, flag, s) => do
    let j ← pyIndex order (i : Int)
    let rot : Nat := sigma s % 3
    let s := s + 1
    let ring ← triangle_puzzle_ring solcard rot
    let po ← pyIndex puzorient (j : Int)
    let puzcards := puzcards.set j ring
    let so ← pyIndex solorient (i : Int)
    let angle := triangle_solution_angle po.2 so po.1 (rot : Int)
    let c0 ← pyIndex solcard 0
    let c1 ← pyIndex solcard 1
    let c2 ← pyIndex solcard 2
    let (e0, flag) ← make_entry c0 solution_size "mark" .tikz flag
    let (e1, flag) ← make_entry c1 solution_size "mark" .tikz flag
    let (e2, flag) ← make_entry c2 solution_size "mark" .tikz flag
    let szSol ← pyIndex sizes (max (solution_size - 2) 0)
    let dsubs := dictSet dsubs ("trisolcard" ++ toString (i + 1))
      ("\x7b" ++ e0 ++ "\x7d\x7b" ++ e1 ++ "\x7d\x7b" ++ e2 ++ "\x7d\x7b" ++
       szSol ++ " " ++ cardnum ((j : Int) + 1) ++ "\x7d\x7b" ++
       toString (normalize_angle angle) ++ "\x7d")
    let p0 ← pyIndex ring 0
    let p1 ← pyIndex ring 1
    let p2 ← pyIndex ring 2
    let (f0, flag) ← make_entry p0 puzzle_size "hide" .tikz flag
    let (f1, flag) ← make_entry p1 puzzle_size "hide" .tikz flag
    let (f2, flag) ← make_entry p2 puzzle_size "hide" .tikz flag
    let szPuz ← pyIndex sizes (max (puzzle_size - 2) 0)
    let dsubs := dictSet dsubs ("tripuzcard" ++ toString (j + 1))
      ("\x7b" ++ f0 ++ "\x7d\x7b" ++ f1 ++ "\x7d\x7b" ++ f2 ++ "\x7d\x7b" ++
       szPuz ++ " " ++ cardnum ((j : Int) + 1) ++ "\x7d\x7b" ++
       toString po.2 ++ "\x7d")
    mt_loop puzzle_size solution_size solorient puzorient order sigma
      (i + 1) restCards (puzcards, dsubs, flag, s)

/-- The main loop of make_squares (lines 367-399): as mt_loop but with
ring length 4, card numbers offset by the triangle card count, and a
90-degree rotation step. -/
def ms_loop (puzzle_size solution_size : Int) (num_triangle_cards : Nat)
    (solorient : List Int) (puzorient : List (Int × Int)) (order : List Nat)
    (sigma : Nat → Nat) :
    Nat → List (List Entry) →
    List (List Entry) × List (String × String) × Bool × Nat →
    Except PyErr (List (List Entry) × List (String × String) × Bool × Nat)
  | _, [], st => .ok st
  | i, solcard :: restCards, (puzcards, dsubs, flag, s) => do
    let j ← pyIndex order (i : Int)
    let rot : Nat := sigma s % 4
    let s := s + 1
    let ring ← square_puzzle_ring solcard rot
    let po ← pyIndex puzorient (j : Int)
    let puzcards := puzcards.set j ring
    let so ← pyIndex solorient (i : Int)
    let angle := square_solution_angle po.2 so po.1 (rot : Int)
    let num := cardnum ((j : Int) + (num_triangle_cards : Int) + 1)
    let c0 ← pyIndex solcard 0
    let c1 ← pyIndex solcard 1
    let c2 ← pyIndex solcard 2
    let c3 ← pyIndex solcard 3
    let (e0, flag) ← make_entry c0 solution_size "mark" .tikz flag
    let (e1, flag) ← make_entry c1 solution_size "mark" .tikz flag
    let (e2, flag) ← make_entry c2 solution_size "mark" .tikz flag
    let (e3, flag) ← make_entry c3 solution_size "mark" .tikz flag
    let szSol ← pyIndex sizes (max (solution_size - 2) 0)
    let dsubs := dictSet dsubs ("sqsolcard" ++ toString (i + 1))
      ("\x7b" ++ e0 ++ "\x7d\x7b" ++ e1 ++ "\x7d\x7b" ++ e2 ++ "\x7d\x7b" ++
       e3 ++ "\x7d\x7b" ++ szSol ++ " " ++ num ++ "\x7d\x7b" ++
       toString (normalize_angle angle) ++ "\x7d")
    let p0 ← pyIndex ring 0
    let p1 ← pyIndex ring 1
    let p2 ← pyIndex ring 2
    let p3 ← pyIndex ring 3
    let (f0, flag) ← make_entry p0 puzzle_size "hide" .tikz flag
    let (f1, flag) ← make_entry p1 puzzle_size "hide" .tikz flag
    let (f2, flag) ← make_entry p2 puzzle_size "hide" .tikz flag
    let (f3, flag) ← make_entry p3 puzzle_size "hide" .tikz flag
    let szPuz ← pyIndex sizes (max (puzzle_size - 2) 0)
    let dsubs := dictSet dsubs ("sqpuzcard" ++ toString (j + 1))
      ("\x7b" ++ f0 ++ "\x7d\x7b" ++ f1 ++ "\x7d\x7b" ++ f2 ++ "\x7d\x7b" ++
       f3 ++ "\x7d\x7b" ++ szPuz ++ " " ++ num ++ "\x7d\x7b" ++
       toString po.2 ++ "\x7d")
    ms_loop puzzle_size solution_size num_triangle_cards solorient puzorient
      order sigma (i + 1) restCards (puzcards, dsubs, flag, s)

/-- Source: make_triangles (lines 217-306).  The text sizes are the
already-resolved puzzleTextSize / solutionTextSize; layoutCards,
solorient and puzorient are the three triangle tables of the layout
file; dsubs and dsubsmd are the substitution dictionaries; sigma and s
the random stream and cursor.  Returns the updated dictionaries, the
hidden flag and the advanced cursor.  No size comparison between
layoutCards and the orientation tables appears anywhere. -/
def make_triangles (puzzle_size solution_size : Int)
    (pairs : List (Entry × Entry)) (edges : List Entry)
    (layoutCards : List (List String)) (solorient : List Int)
    (puzorient : List (Int × Int)) (sigma : Nat → Nat) (s : Nat)
    (dsubs dsubsmd : List (String × String)) (exists_hidden : Bool) :
    Except PyErr (List (String × String) × List (String × String) × Bool × Nat) := do
  let num_triangle_cards := layoutCards.length
  let trianglesolcard ← resolve_solution_cards pairs edges layoutCards
  let shuffled := pyShuffle (List.range num_triangle_cards) sigma s
  let (puzcards, dsubs, flag, s') ←
    mt_loop puzzle_size solution_size solorient puzorient shuffled.1 sigma
      0 trianglesolcard
      (List.replicate num_triangle_cards [], dsubs, exists_hidden, shuffled.2)
  let dsubsmd := if dictContains dsubsmd "puzcards3" then dsubsmd
                 else dictSet dsubsmd "puzcards3" ""
  let dsubsmd := if dictContains dsubsmd "puzcards4" then dsubsmd
                 else dictSet dsubsmd "puzcards4" ""
  let (dsubsmd, flag') ← mt_md_loop puzcards (dsubsmd, flag)
  .ok (dsubs, dsubsmd, flag', s')

/-- Source: make_squares (lines 317-411).  As make_triangles, with the
triangle card count supplied for the continuous numbering offset. -/
def make_squares (puzzle_size solution_size : Int)
    (pairs : List (Entry × Entry)) (edges : List Entry)
    (num_triangle_cards : Nat)
    (layoutCards : List (List String)) (solorient : List Int)
    (puzorient : List (Int × Int)) (sigma : Nat → Nat) (s : Nat)
    (dsubs dsubsmd : List (String × String)) (exists_hidden : Bool) :
    Except PyErr (List (String × String) × List (String × String) × Bool × Nat) := do
  let num_square_cards := layoutCards.length
  let squaresolcard ← resolve_solution_cards pairs edges layoutCards
  let shuffled := pyShuffle (List.range num_square_cards) sigma s
  let (puzcards, dsubs, flag, s') ←
    ms_loop puzzle_size solution_size num_triangle_cards solorient puzorient
      shuffled.1 sigma 0 squaresolcard
      (List.replicate num_square_cards [], dsubs, exists_hidden, shuffled.2)
  let dsubsmd := if dictContains dsubsmd "puzcards4" then dsubsmd
                 else dictSet dsubsmd "puzcards4" ""
  let (dsubsmd, flag') ← ms_md_loop puzcards (dsubsmd, flag)
  .ok (dsubs, dsubsmd, flag', s')

/-- A dict entry with a text field and a truthy hidden field: exactly
the entries whose formatting reaches the lines that set exists_hidden
(the missing-text early return at line 107 comes first). -/
def entryHasHidden : Entry → Bool
  | .dict (some _) _ (some true) => true
  | _ => false

instance {ε α : Type} [DecidableEq ε] [DecidableEq α] : DecidableEq (Except ε α) :=
  fun x y =>
  match x, y with
  | .ok a, .ok b =>
    if h : a = b then .isTrue (by rw [h]) else .isFalse (by simp [h])
  | .error a, .error b =>
    if h : a = b then .isTrue (by rw [h]) else .isFalse (by simp [h])
  | .ok _, .error _ => .isFalse (by simp)
  | .error _, .ok _ => .isFalse (by simp)


section Theorems

/-- C3 counterexample: the claim predicts puzzle ring
["A1","E1","E2","Q1"] for the solution ring ["Q1","A1","E1","E2"] at
rot = 1, but the code (lines 370-373) produces ["E2","Q1","A1","E1"]. -/
theorem square_ring_rot1_not_left_shift :
    ¬ square_puzzle_ring ["Q1", "A1", "E1", "E2"] 1 =
      .ok ["A1", "E1", "E2", "Q1"] := by decide

/-- C3 amended: a square piece with solution ring ["Q1","A1","E1","E2"]
and rot = 1 yields the puzzle ring ["E2","Q1","A1","E1"] (the cyclic
shift in the opposite direction to the one the claim names). -/
theorem square_ring_rot1_value :
    square_puzzle_ring ["Q1", "A1", "E1", "E2"] 1 =
      .ok ["E2", "Q1", "A1", "E1"] := by decide

/-- C4 counterexample: with number orientation 180, equal solution and
puzzle base orientations and rot = 0 (a valid combination), the
computed angle is 180 and normalizes to -180, which is outside the
half-open interval (-180, 180] the claim names. -/
theorem normalized_angle_hits_minus_180 :
    normalize_angle (triangle_solution_angle 180 0 0 0) = -180 ∧
    ¬ (-180 < normalize_angle (triangle_solution_angle 180 0 0 0) ∧
        normalize_angle (triangle_solution_angle 180 0 0 0) ≤ 180) := by decide

/-- C4 amended: for every combination of integer orientation-table
angles, solution orientation and rotation, the normalized
solution-number angle of both shapes lies in the half-open interval
[-180, 180) — closed at -180, open at 180 (the mirror image of the
interval the claim names). -/
theorem normalized_angle_in_Ico (numpuz solorient basepuz rot : Int) :
    (-180 ≤ normalize_angle (triangle_solution_angle numpuz solorient basepuz rot) ∧
      normalize_angle (triangle_solution_angle numpuz solorient basepuz rot) < 180) ∧
    (-180 ≤ normalize_angle (square_solution_angle numpuz solorient basepuz rot) ∧
      normalize_angle (square_solution_angle numpuz solorient basepuz rot) < 180) := by
  unfold normalize_angle
  have h1 := Int.emod_nonneg (triangle_solution_angle numpuz solorient basepuz rot + 180)
    (b := 360) (by norm_num)
  have h2 := Int.emod_lt_of_pos (triangle_solution_angle numpuz solorient basepuz rot + 180)
    (b := 360) (by norm_num)
  have h3 := Int.emod_nonneg (square_solution_angle numpuz solorient basepuz rot + 180)
    (b := 360) (by norm_num)
  have h4 := Int.emod_lt_of_pos (square_solution_angle numpuz solorient basepuz rot + 180)
    (b := 360) (by norm_num)
  omega

/-- C6: a ring containing the reference "X1", whose kind token is none
of Q, A or E, makes resolution reach the call to the undefined name
printf (line 246 / 349): the run raises NameError instead of emitting a
diagnostic and continuing with an empty entry as the claim requires. -/
theorem unknown_kind_token_raises_nameerror :
    resolve_solution_card [(.str "q", .str "a")] [.str "e"] ["Q1", "X1", "E1"] =
      .error (.nameError "printf") := by decide

/-- C8: substituting a template containing the token "<: foo :>"
against a substitution map that lacks the name foo makes the
replacement callback of re.sub return None (lines 68-73), which re.sub
rejects with a TypeError: the substitution does not complete, contrary
to the claim that an unrecognised token is non-fatal. -/
theorem losub_unknown_token_raises :
    losub "<: foo :> rest" [("bar", "B")] =
      .error (.typeError "sub() replacement returned None, expected str") ∧
    losub "<: bar :> rest" [("bar", "B")] = .ok "B rest" := by decide

/-- C7 counterexample: formatting the entry (text "x", hidden true)
with hide-mode "ignore" sets the exists_hidden flag to true (lines
125-127 run before the mode dispatch), whereas the claim predicts the
flag stays at its prior value false under "ignore". -/
theorem hidden_ignore_sets_flag :
    (make_entry (.dict (some "x") none (some true)) 4 "ignore" .table false).map
        Prod.snd = .ok true ∧
    ¬ (make_entry (.dict (some "x") none (some true)) 4 "ignore" .table false).map
        Prod.snd = .ok false := by decide

theorem sizes_length_eq : (sizes.length : Int) = 10 := by decide

theorem pyIndex_isOk {α : Type} {l : List α} {i : Int} (h0 : 0 ≤ i)
    (h1 : i < l.length) : ∃ a, pyIndex l i = .ok a := by
  unfold pyIndex
  have hneg : ¬ i < 0 := by omega
  simp only [if_neg hneg]
  have ht : i.toNat < l.length := by omega
  rw [List.get?_eq_get ht]
  exact ⟨_, rfl⟩

theorem isExitAbort_map {α β : Type} (f : α → β) (x : Except PyErr α) :
    isExitAbort (x.map f) = isExitAbort x := by
  rcases x with e | a
  · rcases e with _ | _ | _ | _ | _ <;> rfl
  · rfl

theorem pyIndex_no_exit {α : Type} (l : List α) (i : Int) :
    isExitAbort (pyIndex l i) = false := by
  unfold pyIndex
  by_cases h : (if i < 0 then i + (l.length : Int) else i) < 0
  · simp only [if_pos h]
    rfl
  · simp only [if_neg h]
    rcases l.get? (if i < 0 then i + (l.length : Int) else i).toNat with _ | a <;> rfl

/-- The size index computed by make_entry is a valid index of sizes
whenever the default size is: the entry-local branch clamps into
[0, 9], the other branches use the default unchanged. -/
theorem make_entry_size_bounds (d : Int) (sizeF : Option SizeField)
    (h0 : 0 ≤ d) (h1 : d < 10) :
    0 ≤ (match sizeF with
         | some (.num n) =>
           let s0 := d + n
           let s1 := if s0 < 0 then 0 else s0
           if s1 ≥ (sizes.length : Int) then (sizes.length : Int) - 1 else s1
         | some (.bad _) => d
         | none => d) ∧
    (match sizeF with
     | some (.num n) =>
       let s0 := d + n
       let s1 := if s0 < 0 then 0 else s0
       if s1 ≥ (sizes.length : Int) then (sizes.length : Int) - 1 else s1
     | some (.bad _) => d
     | none => d) < 10 := by
  rcases sizeF with _ | f
  · exact ⟨h0, h1⟩
  · rcases f with n | s
    · simp only [sizes_length_eq]
      constructor <;> split_ifs <;> omega
    · exact ⟨h0, h1⟩

/-- Shared shape lemma for make_entry: with a legal hide parameter and
an in-range default size, the call returns normally, and the resulting
exists_hidden flag is the old flag joined with whether the entry is a
dict carrying a text field and a truthy hidden field. -/
theorem make_entry_ok (e : Entry) (d : Int) (hide : String) (st : Style)
    (flag : Bool)
    (hh : hide = "hide" ∨ hide = "mark" ∨ hide = "ignore")
    (h0 : 0 ≤ d) (h1 : d < 10) :
    ∃ str, make_entry e d hide st flag = .ok (str, flag || entryHasHidden e) := by
  rcases e with s | ⟨text, sizeF, hidden⟩
  · obtain ⟨a, ha⟩ := pyIndex_isOk (l := sizes) (i := d) h0
      (by rw [sizes_length_eq]; exact h1)
    simp only [make_entry, ha, Except.map, entryHasHidden, Bool.or_false]
    exact ⟨_, rfl⟩
  · rcases text with _ | t
    · simp only [make_entry, entryHasHidden, Bool.or_false]
      exact ⟨_, rfl⟩
    · obtain ⟨hs0, hs1⟩ := make_entry_size_bounds d sizeF h0 h1
      obtain ⟨a, ha⟩ := pyIndex_isOk (l := sizes) hs0
        (by rw [sizes_length_eq]; exact hs1)
      by_cases hhid : hidden = some true
      · subst hhid
        have hent : entryHasHidden (.dict (some t) sizeF (some true)) = true := rfl
        rcases hh with h | h | h <;> subst h <;>
          simp only [make_entry, if_pos rfl, ha, Except.map, hent, Bool.or_true,
            String.reduceEq, if_true, if_false, reduceIte] <;>
          exact ⟨_, rfl⟩
      · have hent : entryHasHidden (.dict (some t) sizeF hidden) = false := by
          rcases hidden with _ | b
          · rfl
          · rcases b with _ | _
            · rfl
            · exact absurd rfl hhid
        simp only [make_entry, if_neg hhid, ha, Except.map, hent, Bool.or_false]
        exact ⟨_, rfl⟩

/-- A legal hide parameter keeps make_entry away from the sys.exit
branch, whatever the entry, the default size and the style. -/
theorem make_entry_no_exit (e : Entry) (d : Int) (hide : String) (st : Style)
    (flag : Bool)
    (hh : hide = "hide" ∨ hide = "mark" ∨ hide = "ignore") :
    isExitAbort (make_entry e d hide st flag) = false := by
  rcases e with s | ⟨text, sizeF, hidden⟩
  · simp only [make_entry, isExitAbort_map]
    exact pyIndex_no_exit _ _
  · rcases text with _ | t
    · rfl
    · simp only [make_entry]
      by_cases hhid : hidden = some true
      · simp only [if_pos hhid]
        rcases hh with h | h | h <;> subst h
        · rfl
        · simp only [String.reduceEq, reduceIte, isExitAbort_map]
          exact pyIndex_no_exit _ _
        · simp only [String.reduceEq, reduceIte, isExitAbort_map]
          exact pyIndex_no_exit _ _
      · simp only [if_neg hhid, isExitAbort_map]
        exact pyIndex_no_exit _ _

/-- C7 amended: formatting any entry with a legal hide-mode ("hide",
"mark" or "ignore" alike — the flag assignment at lines 126-127 runs
before the mode dispatch) sets the run-scoped exists_hidden flag
exactly when the entry is a record with a text field flagged
hidden=true, and otherwise leaves the flag unchanged; entries without
hidden=true never set it. -/
theorem hidden_flag_set_in_all_modes (e : Entry) (d : Int) (hide : String)
    (st : Style) (flag : Bool)
    (hh : hide = "hide" ∨ hide = "mark" ∨ hide = "ignore")
    (h0 : 0 ≤ d) (h1 : d < 10) :
    (make_entry e d hide st flag).map Prod.snd =
      .ok (flag || entryHasHidden e) := by
  obtain ⟨str, hstr⟩ := make_entry_ok e d hide st flag hh h0 h1
  rw [hstr]
  rfl

/-- C7 amended witness: at the concrete hidden entry, hide-mode
"ignore" and prior flag false, the flag comes back true. -/
theorem hidden_flag_set_in_all_modes_witness :
    (make_entry (.dict (some "x") none (some true)) 4 "ignore" .table false).map
      Prod.snd = .ok (false || entryHasHidden (.dict (some "x") none (some true))) :=
  hidden_flag_set_in_all_modes (.dict (some "x") none (some true)) 4 "ignore"
    .table false (Or.inr (Or.inr rfl)) (by decide) (by decide)

/-- C9: with a hide parameter among "hide", "mark" and "ignore", the
sys.exit branch of make_entry (line 136) is unreachable — the call
never ends in a SystemExit — and, whenever the default size is a valid
index of the sizes table, make_entry returns a string for every entry,
bare string or record. -/
theorem make_entry_total (e : Entry) (d : Int) (hide : String) (st : Style)
    (flag : Bool)
    (hh : hide = "hide" ∨ hide = "mark" ∨ hide = "ignore") :
    isExitAbort (make_entry e d hide st flag) = false ∧
    (0 ≤ d → d < 10 → (make_entry e d hide st flag).isOk = true) := by
  refine ⟨make_entry_no_exit e d hide st flag hh, fun h0 h1 => ?_⟩
  obtain ⟨str, hstr⟩ := make_entry_ok e d hide st flag hh h0 h1
  rw [hstr]
  rfl

/-- C9 witness: a bare-string entry at default size 4 under hide-mode
"hide". -/
theorem make_entry_total_witness :
    isExitAbort (make_entry (.str "hello") 4 "hide" .tikz false) = false ∧
    (make_entry (.str "hello") 4 "hide" .tikz false).isOk = true :=
  ⟨(make_entry_total (.str "hello") 4 "hide" .tikz false (Or.inl rfl)).1,
   (make_entry_total (.str "hello") 4 "hide" .tikz false (Or.inl rfl)).2
     (by decide) (by decide)⟩

/-- C10: a hidden entry formatted in md style with hide-mode "hide"
renders as the literal " (BLANK) " for every text it carries, the very
string an entry with empty text renders to, so the markdown puzzle
output cannot distinguish hidden content from genuinely blank content. -/
theorem hidden_md_is_blank (t : String) (d : Int) (flag : Bool)
    (h0 : 0 ≤ d) (h1 : d < 10) :
    (make_entry (.dict (some t) none (some true)) d "hide" .md flag).map
        Prod.fst = .ok " (BLANK) " ∧
    (make_entry (.str "") d "hide" .md flag).map Prod.fst = .ok " (BLANK) " := by
  constructor
  · rfl
  · obtain ⟨a, ha⟩ := pyIndex_isOk (l := sizes) (i := d) h0
      (by rw [sizes_length_eq]; exact h1)
    simp [make_entry, ha, Except.map, make_entry_util]

/-- C10 witness: text "secret", default size 4, prior flag false. -/
theorem hidden_md_is_blank_witness :
    (make_entry (.dict (some "secret") none (some true)) 4 "hide" .md false).map
        Prod.fst = .ok " (BLANK) " ∧
    (make_entry (.str "") 4 "hide" .md false).map Prod.fst = .ok " (BLANK) " :=
  hidden_md_is_blank "secret" 4 false (by decide) (by decide)

/-- C2: for both shapes, every rotation below the ring length and every
length-matching solution ring, puzzle ring slot k holds solution ring
slot (k + ringLength - rot) mod ringLength: the index lists
(3-rot)%3, (4-rot)%3, (5-rot)%3 of lines 267-269 and (4-rot)%4 ...
(7-rot)%4 of lines 370-373 are exactly the anticlockwise rotation the
spec describes. -/
theorem ring_rotation_matches_spec {α : Type} (d : α) :
    (∀ (solcard : List α) (rot k : Nat), rot < 3 → solcard.length = 3 → k < 3 →
      (triangle_puzzle_ring solcard rot).map (fun r => r.getD k d) =
        .ok (solcard.getD ((k + 3 - rot) % 3) d)) ∧
    (∀ (solcard : List α) (rot k : Nat), rot < 4 → solcard.length = 4 → k < 4 →
      (square_puzzle_ring solcard rot).map (fun r => r.getD k d) =
        .ok (solcard.getD ((k + 4 - rot) % 4) d)) := by
  constructor
  · intro solcard rot k hrot hlen hk
    obtain ⟨a, b, c, rfl⟩ := List.length_eq_three.mp hlen
    interval_cases rot <;> interval_cases k <;> rfl
  · intro solcard rot k hrot hlen hk
    rcases solcard with _ | ⟨a, _ | ⟨b, _ | ⟨c, _ | ⟨e, _ | ⟨f, t⟩⟩⟩⟩⟩ <;>
      simp only [List.length] at hlen <;> try omega
    interval_cases rot <;> interval_cases k <;> rfl

/-- C2 witness: triangle ring [10, 20, 30] rotated by 1, slot 0 reads
solution slot 2. -/
theorem ring_rotation_matches_spec_witness :
    (triangle_puzzle_ring [10, 20, 30] 1).map (fun r => r.getD 0 (0 : Nat)) =
      .ok (([10, 20, 30] : List Nat).getD ((0 + 3 - 1) % 3) 0) :=
  (ring_rotation_matches_spec (0 : Nat)).1 [10, 20, 30] 1 0 (by decide) (by decide)
    (by decide)

/-- Pulling the element at position m to the front while writing a
into position m permutes a cons of the remainder. -/
theorem set_cons_perm {α : Type} :
    ∀ (t : List α) (m : Nat) (a : α) (h : m < t.length),
      List.Perm (t.get ⟨m, h⟩ :: t.set m a) (a :: t) := by
  intro t
  induction t with
  | nil => intro m a h; simp at h
  | cons c u ih =>
    intro m a h
    cases m with
    | zero => exact List.Perm.swap a c u
    | succ m =>
      have hm : m < u.length := by simpa using h
      exact ((List.Perm.swap c _ _).trans ((ih m a hm).cons c)).trans
        (List.Perm.swap a c u)

/-- Writing x[j] into position i and x[i] into position j permutes the
list. -/
theorem double_set_perm {α : Type} :
    ∀ (l : List α) (i j : Nat) (hi : i < l.length) (hj : j < l.length),
      List.Perm ((l.set i (l.get ⟨j, hj⟩)).set j (l.get ⟨i, hi⟩)) l := by
  intro l
  induction l with
  | nil => intro i j hi _; simp at hi
  | cons c u ih =>
    intro i j hi hj
    cases i with
    | zero =>
      cases j with
      | zero => simp
      | succ m =>
        have hm : m < u.length := by simpa using hj
        exact set_cons_perm u m c hm
    | succ n =>
      cases j with
      | zero =>
        have hn : n < u.length := by simpa using hi
        exact set_cons_perm u n c hn
      | succ m =>
        have hn : n < u.length := by simpa using hi
        have hm : m < u.length := by simpa using hj
        exact (ih n m hn hm).cons c

/-- One shuffle exchange never changes the multiset of list elements. -/
theorem listSwap_perm {α : Type} (l : List α) (i j : Nat) :
    List.Perm (listSwap l i j) l := by
  unfold listSwap
  rcases hgi : l.get? i with _ | a
  · exact List.Perm.refl l
  · rcases hgj : l.get? j with _ | b
    · exact List.Perm.refl l
    · obtain ⟨hi, rfl⟩ := List.get?_eq_some.mp hgi
      obtain ⟨hj, rfl⟩ := List.get?_eq_some.mp hgj
      exact double_set_perm l i j hi hj

/-- The fold inside pyShuffle preserves the multiset of elements
whatever the index list, the stream and the cursor. -/
theorem foldl_swap_perm {α : Type} (sigma : Nat → Nat) :
    ∀ (idxs : List Nat) (x : List α) (s : Nat),
      List.Perm
        (idxs.foldl
          (fun st i => (listSwap st.1 i (sigma st.2 % (i + 1)), st.2 + 1)) (x, s)).1
        x
  | [], x, _ => List.Perm.refl x
  | i :: rest, x, s =>
    (foldl_swap_perm sigma rest (listSwap x i (sigma s % (i + 1))) (s + 1)).trans
      (listSwap_perm x i (sigma s % (i + 1)))

/-- random.shuffle returns a permutation of its input. -/
theorem pyShuffle_perm {α : Type} (x : List α) (sigma : Nat → Nat) (s : Nat) :
    List.Perm (pyShuffle x sigma s).1 x :=
  foldl_swap_perm sigma ((List.range' 1 (x.length - 1)).reverse) x s

/-- A list that is a permutation of range n, read as the map from
solution index to puzzle position, is a bijection of 0..n-1: every
index maps below n and every position below n is hit by exactly one
index. -/
theorem perm_range_bijection (ord : List Nat) (n : Nat)
    (h : List.Perm ord (List.range n)) :
    (∀ i, i < n → ord.getD i 0 < n) ∧
    (∀ j, j < n → ∃! i, i < n ∧ ord.getD i 0 = j) := by
  have hlen : ord.length = n := by simpa using h.length_eq
  have hnd : ord.Nodup := h.nodup_iff.mpr (List.nodup_range n)
  constructor
  · intro i hi
    have hi' : i < ord.length := by omega
    rw [List.getD_eq_getElem ord 0 hi']
    have hmem : ord[i] ∈ List.range n := h.mem_iff.mp (List.getElem_mem hi')
    simpa using hmem
  · intro j hj
    have hmem : j ∈ ord := h.mem_iff.mpr (by simpa using hj)
    obtain ⟨i, hi, hget⟩ := List.mem_iff_getElem.mp hmem
    refine ⟨i, ⟨by omega, by rw [List.getD_eq_getElem ord 0 hi]; exact hget⟩, ?_⟩
    rintro i' ⟨hi', hget'⟩
    have hi'' : i' < ord.length := by omega
    rw [List.getD_eq_getElem ord 0 hi''] at hget'
    exact (hnd.getElem_inj_iff).mp (hget'.trans hget.symm)

/-- C1: for both shapes and every card count n, the placement drawn by
the engine (solution card i goes to puzzle position triangleorder[i] /
squareorder[i], lines 257-258 and 360-361, used at lines 264-265 and
367-368) is a bijection of 0..n-1: every solution card lands below n
and every puzzle position below n receives exactly one solution card,
for every random stream and cursor. -/
theorem assignment_is_bijection (n : Nat) (sigma : Nat → Nat) (s : Nat) :
    ((∀ i, i < n → (triangleorder n sigma s).getD i 0 < n) ∧
      (∀ j, j < n → ∃! i, i < n ∧ (triangleorder n sigma s).getD i 0 = j)) ∧
    ((∀ i, i < n → (squareorder n sigma s).getD i 0 < n) ∧
      (∀ j, j < n → ∃! i, i < n ∧ (squareorder n sigma s).getD i 0 = j)) :=
  ⟨perm_range_bijection _ n (pyShuffle_perm (List.range n) sigma s),
   perm_range_bijection _ n (pyShuffle_perm (List.range n) sigma s)⟩

theorem isExitAbort_bind {α β : Type} (x : Except PyErr α)
    (f : α → Except PyErr β) (hx : isExitAbort x = false)
    (hf : ∀ a, isExitAbort (f a) = false) :
    isExitAbort (x >>= f) = false := by
  rcases x with e | a
  · rcases e with _ | _ | _ | _ | m
    · rfl
    · rfl
    · rfl
    · rfl
    · exact hx
  · exact hf a

theorem pyIntOfString_no_exit (s : String) :
    isExitAbort (pyIntOfString s) = false := by
  unfold pyIntOfString
  split
  · split
    · rfl
    · split <;> rfl
  · split
    · rfl
    · split <;> rfl

theorem resolve_card_no_exit (pairs : List (Entry × Entry)) (edges : List Entry) :
    ∀ card, isExitAbort (resolve_solution_card pairs edges card) = false
  | [] => rfl
  | entry :: rest => by
    unfold resolve_solution_card
    refine isExitAbort_bind _ _ (pyIntOfString_no_exit _) fun m => ?_
    dsimp only
    split <;>
      refine isExitAbort_bind _ _ ?_ fun resolved =>
        isExitAbort_bind _ _ (resolve_card_no_exit pairs edges rest) fun l => rfl
    · rw [isExitAbort_map]; exact pyIndex_no_exit _ _
    · rw [isExitAbort_map]; exact pyIndex_no_exit _ _
    · exact pyIndex_no_exit _ _
    · rfl

theorem resolve_cards_no_exit (pairs : List (Entry × Entry)) (edges : List Entry) :
    ∀ cards, isExitAbort (resolve_solution_cards pairs edges cards) = false
  | [] => rfl
  | card :: rest => by
    unfold resolve_solution_cards
    refine isExitAbort_bind _ _ (resolve_card_no_exit pairs edges card) fun c => ?_
    refine isExitAbort_bind _ _ (resolve_cards_no_exit pairs edges rest) fun cs => rfl

theorem triangle_ring_no_exit {α : Type} (solcard : List α) (rot : Nat) :
    isExitAbort (triangle_puzzle_ring solcard rot) = false := by
  unfold triangle_puzzle_ring
  refine isExitAbort_bind _ _ (pyIndex_no_exit _ _) fun r0 => ?_
  refine isExitAbort_bind _ _ (pyIndex_no_exit _ _) fun r1 => ?_
  refine isExitAbort_bind _ _ (pyIndex_no_exit _ _) fun r2 => rfl

theorem square_ring_no_exit {α : Type} (solcard : List α) (rot : Nat) :
    isExitAbort (square_puzzle_ring solcard rot) = false := by
  unfold square_puzzle_ring
  refine isExitAbort_bind _ _ (pyIndex_no_exit _ _) fun r0 => ?_
  refine isExitAbort_bind _ _ (pyIndex_no_exit _ _) fun r1 => ?_
  refine isExitAbort_bind _ _ (pyIndex_no_exit _ _) fun r2 => ?_
  refine isExitAbort_bind _ _ (pyIndex_no_exit _ _) fun r3 => rfl

theorem md_row_fold_no_exit :
    ∀ (es : List Entry) (row : String) (flag : Bool),
      isExitAbort (md_row_fold es row flag) = false
  | [], _, _ => rfl
  | e :: rest, row, flag => by
    unfold md_row_fold
    refine isExitAbort_bind _ _
      (make_entry_no_exit e 0 "hide" .md flag (Or.inl rfl)) fun a => ?_
    rcases a with ⟨s, flag'⟩
    exact md_row_fold_no_exit rest (row ++ s ++ "|") flag'

theorem mt_md_loop_no_exit :
    ∀ (ts : List (List Entry)) (st : List (String × String) × Bool),
      isExitAbort (mt_md_loop ts st) = false
  | [], _ => rfl
  | t :: rest, (dsubsmd, flag) => by
    unfold mt_md_loop
    refine isExitAbort_bind _ _ (md_row_fold_no_exit _ _ _) fun a => ?_
    rcases a with ⟨row, flag'⟩
    exact mt_md_loop_no_exit rest _

theorem ms_md_loop_no_exit :
    ∀ (ts : List (List Entry)) (st : List (String × String) × Bool),
      isExitAbort (ms_md_loop ts st) = false
  | [], _ => rfl
  | t :: rest, (dsubsmd, flag) => by
    unfold ms_md_loop
    refine isExitAbort_bind _ _ (md_row_fold_no_exit _ _ _) fun a => ?_
    rcases a with ⟨row, flag'⟩
    exact ms_md_loop_no_exit rest _

theorem mt_loop_no_exit (ps ss : Int) (solorient : List Int)
    (puzorient : List (Int × Int)) (order : List Nat) (sigma : Nat → Nat) :
    ∀ (cards : List (List Entry)) (i : Nat)
      (st : List (List Entry) × List (String × String) × Bool × Nat),
      isExitAbort (mt_loop ps ss solorient puzorient order sigma i cards st) = false
  | [], _, _ => rfl
  | solcard :: rest, i, (puzcards, dsubs, flag, s) => by
    unfold mt_loop
    refine isExitAbort_bind _ _ (pyIndex_no_exit _ _) fun j => ?_
    refine isExitAbort_bind _ _ (triangle_ring_no_exit _ _) fun ring => ?_
    refine isExitAbort_bind _ _ (pyIndex_no_exit _ _) fun po => ?_
    refine isExitAbort_bind _ _ (pyIndex_no_exit _ _) fun so => ?_
    refine isExitAbort_bind _ _ (pyIndex_no_exit _ _) fun c0 => ?_
    refine isExitAbort_bind _ _ (pyIndex_no_exit _ _) fun c1 => ?_
    refine isExitAbort_bind _ _ (pyIndex_no_exit _ _) fun c2 => ?_
    refine isExitAbort_bind _ _
      (make_entry_no_exit _ _ _ _ _ (Or.inr (Or.inl rfl))) fun a => ?_
    rcases a with ⟨e0, flag0⟩
    refine isExitAbort_bind _ _
      (make_entry_no_exit _ _ _ _ _ (Or.inr (Or.inl rfl))) fun a => ?_
    rcases a with ⟨e1, flag1⟩
    refine isExitAbort_bind _ _
      (make_entry_no_exit _ _ _ _ _ (Or.inr (Or.inl rfl))) fun a => ?_
    rcases a with ⟨e2, flag2⟩
    refine isExitAbort_bind _ _ (pyIndex_no_exit _ _) fun szSol => ?_
    refine isExitAbort_bind _ _ (pyIndex_no_exit _ _) fun p0 => ?_
    refine isExitAbort_bind _ _ (pyIndex_no_exit _ _) fun p1 => ?_
    refine isExitAbort_bind _ _ (pyIndex_no_exit _ _) fun p2 => ?_
    refine isExitAbort_bind _ _
      (make_entry_no_exit _ _ _ _ _ (Or.inl rfl)) fun a => ?_
    rcases a with ⟨f0, flag3⟩
    refine isExitAbort_bind _ _
      (make_entry_no_exit _ _ _ _ _ (Or.inl rfl)) fun a => ?_
    rcases a with ⟨f1, flag4⟩
    refine isExitAbort_bind _ _
      (make_entry_no_exit _ _ _ _ _ (Or.inl rfl)) fun a => ?_
    rcases a with ⟨f2, flag5⟩
    refine isExitAbort_bind _ _ (pyIndex_no_exit _ _) fun szPuz => ?_
    exact mt_loop_no_exit ps ss solorient puzorient order sigma rest (i + 1) _

theorem ms_loop_no_exit (ps ss : Int) (ntc : Nat) (solorient : List Int)
    (puzorient : List (Int × Int)) (order : List Nat) (sigma : Nat → Nat) :
    ∀ (cards : List (List Entry)) (i : Nat)
      (st : List (List Entry) × List (String × String) × Bool × Nat),
      isExitAbort (ms_loop ps ss ntc solorient puzorient order sigma i cards st) = false
  | [], _, _ => rfl
  | solcard :: rest, i, (puzcards, dsubs, flag, s) => by
    unfold ms_loop
    refine isExitAbort_bind _ _ (pyIndex_no_exit _ _) fun j => ?_
    refine isExitAbort_bind _ _ (square_ring_no_exit _ _) fun ring => ?_
    refine isExitAbort_bind _ _ (pyIndex_no_exit _ _) fun po => ?_
    refine isExitAbort_bind _ _ (pyIndex_no_exit _ _) fun so => ?_
    refine isExitAbort_bind _ _ (pyIndex_no_exit _ _) fun c0 => ?_
    refine isExitAbort_bind _ _ (pyIndex_no_exit _ _) fun c1 => ?_
    refine isExitAbort_bind _ _ (pyIndex_no_exit _ _) fun c2 => ?_
    refine isExitAbort_bind _ _ (pyIndex_no_exit _ _) fun c3 => ?_
    refine isExitAbort_bind _ _
      (make_entry_no_exit _ _ _ _ _ (Or.inr (Or.inl rfl))) fun a => ?_
    rcases a with ⟨e0, flag0⟩
    refine isExitAbort_bind _ _
      (make_entry_no_exit _ _ _ _ _ (Or.inr (Or.inl rfl))) fun a => ?_
    rcases a with ⟨e1, flag1⟩
    refine isExitAbort_bind _ _
      (make_entry_no_exit _ _ _ _ _ (Or.inr (Or.inl rfl))) fun a => ?_
    rcases a with ⟨e2, flag2⟩
    refine isExitAbort_bind _ _
      (make_entry_no_exit _ _ _ _ _ (Or.inr (Or.inl rfl))) fun a => ?_
    rcases a with ⟨e3, flag3⟩
    refine isExitAbort_bind _ _ (pyIndex_no_exit _ _) fun szSol => ?_
    refine isExitAbort_bind _ _ (pyIndex_no_exit _ _) fun p0 => ?_
    refine isExitAbort_bind _ _ (pyIndex_no_exit _ _) fun p1 => ?_
    refine isExitAbort_bind _ _ (pyIndex_no_exit _ _) fun p2 => ?_
    refine isExitAbort_bind _ _ (pyIndex_no_exit _ _) fun p3 => ?_
    refine isExitAbort_bind _ _
      (make_entry_no_exit _ _ _ _ _ (Or.inl rfl)) fun a => ?_
    rcases a with ⟨f0, flag4⟩
    refine isExitAbort_bind _ _
      (make_entry_no_exit _ _ _ _ _ (Or.inl rfl)) fun a => ?_
    rcases a with ⟨f1, flag5⟩
    refine isExitAbort_bind _ _
      (make_entry_no_exit _ _ _ _ _ (Or.inl rfl)) fun a => ?_
    rcases a with ⟨f2, flag6⟩
    refine isExitAbort_bind _ _
      (make_entry_no_exit _ _ _ _ _ (Or.inl rfl)) fun a => ?_
    rcases a with ⟨f3, flag7⟩
    refine isExitAbort_bind _ _ (pyIndex_no_exit _ _) fun szPuz => ?_
    exact ms_loop_no_exit ps ss ntc solorient puzorient order sigma rest (i + 1) _

/-- C5 counterexample: a concrete run in which the layout supplies one
solution card but two-entry orientation tables — a size mismatch the
claim says must abort before any random draw — completes successfully
and produces its output substitutions. -/
theorem size_mismatch_run_completes :
    (make_triangles 4 4 [(.str "q", .str "a")] [.str "e"]
      [["Q1", "A1", "E1"]] [0, 0] [(0, 0), (90, 90)]
      (fun _ => 0) 0 [] [] false).isOk = true ∧
    ([["Q1", "A1", "E1"]] : List (List String)).length = 1 ∧
    ([(0, 0), (90, 90)] : List (Int × Int)).length = 2 ∧
    ([0, 0] : List Int).length = 2 := by
  exact ⟨rfl, rfl, rfl, rfl⟩

/-- C5 amended: the engine performs no size comparison between the
solution-card list and the orientation tables, so a mismatch never
triggers a configuration-error abort: for every input whatsoever,
neither make_triangles nor make_squares can end in a sys.exit — a
longer orientation table is silently accepted (the counterexample run
completes), and a shorter one surfaces only later as an IndexError
during card placement, after the permutation and rotations have been
drawn. -/
theorem no_size_check_no_config_abort (ps ss : Int)
    (pairs : List (Entry × Entry)) (edges : List Entry) (ntc : Nat)
    (layoutCards : List (List String)) (solorient : List Int)
    (puzorient : List (Int × Int)) (sigma : Nat → Nat) (s : Nat)
    (dsubs dsubsmd : List (String × String)) (flag : Bool) :
    isExitAbort (make_triangles ps ss pairs edges layoutCards solorient
      puzorient sigma s dsubs dsubsmd flag) = false ∧
    isExitAbort (make_squares ps ss pairs edges ntc layoutCards solorient
      puzorient sigma s dsubs dsubsmd flag) = false := by
  constructor
  · unfold make_triangles
    refine isExitAbort_bind _ _ (resolve_cards_no_exit _ _ _) fun cards => ?_
    refine isExitAbort_bind _ _ (mt_loop_no_exit _ _ _ _ _ _ _ _ _) fun a => ?_
    rcases a with ⟨puzcards, dsubs', flag', s'⟩
    refine isExitAbort_bind _ _ (mt_md_loop_no_exit _ _) fun a => ?_
    rcases a with ⟨dsubsmd', flag''⟩
    rfl
  · unfold make_squares
    refine isExitAbort_bind _ _ (resolve_cards_no_exit _ _ _) fun cards => ?_
    refine isExitAbort_bind _ _ (ms_loop_no_exit _ _ _ _ _ _ _ _ _ _) fun a => ?_
    rcases a with ⟨puzcards, dsubs', flag', s'⟩
    refine isExitAbort_bind _ _ (ms_md_loop_no_exit _ _) fun a => ?_
    rcases a with ⟨dsubsmd', flag''⟩
    rfl

end Theorems

end Jigsaw
